import Mathlib

/-!
Shallow embedding of the transaction-lifecycle core of the payment-gateway
backend: the Transaction Service (create, update, updateStatus,
updateGatewayResponse, remove), the PayOS orchestration listener, the
timeout-scheduler listener and queue service, the timeout job processor,
and the PayOS webhook handler.  Database state is modelled as explicit
lists of rows; every operation returns the new state, the list of bus
events it emitted, and an `Except` value for thrown service exceptions.
Prisma `$transaction` blocks are modelled atomically: on error the state
is returned unchanged.
-/

namespace PaymentGateway

-- Status string constants of the `TransactionStatus` enum in
-- `create-transaction.dto.ts`.
namespace TransactionStatus

def PENDING : String := "pending"

def AWAITING_PAYMENT : String := "awaiting_payment"

def PROCESSING : String := "processing"

def COMPLETED : String := "completed"

def FAILED : String := "failed"

def CANCELLED : String := "cancelled"

def REFUNDED : String := "refunded"

end TransactionStatus

/-- Spec vocabulary (glossary): a terminal status is completed, failed,
cancelled or refunded. -/
def isTerminalStatus (s : String) : Bool :=
  s == TransactionStatus.COMPLETED || s == TransactionStatus.FAILED ||
  s == TransactionStatus.CANCELLED || s == TransactionStatus.REFUNDED

/-- Shape of a PayOS webhook body (`PayosWebhookBodyPayload`): top-level
result code and description plus the `data` object's order code and amount. -/
structure WebhookBody where
  code : String
  desc : String
  orderCode : Int
  amount : Int
deriving DecidableEq

/-- Opaque JSON payload stored in `gateway_response`; the constructors are
the shapes the repository actually stores there. -/
inductive GatewayPayload where
  | jsonNull : GatewayPayload
  | providerResponse (orderCode : Int) (checkoutUrl qrCode : String) : GatewayPayload
  | errorInfo (message : String) (timestamp : Nat) : GatewayPayload
  | webhook (w : WebhookBody) : GatewayPayload
deriving DecidableEq

/-- A row of the `transactions` table. -/
structure Transaction where
  id : String
  user_id : String
  payment_method_id : Option String := none
  amount : Int := 0
  currency : String := "VND"
  description : Option String := none
  status : String
  gateway_provider : Option String := none
  gateway_response : Option GatewayPayload := none
  external_transaction_id : Option Int := none
  fraud_score : Option Int := none
  fraud_decision : Option String := none
  fraud_provider : Option String := none
  job_id : Option String := none
  ip_address : Option String := none
  user_agent : Option String := none
  device_id : Option String := none
  created_at : Nat := 0
  updated_at : Nat := 0
  completed_at : Option Nat := none
deriving DecidableEq

/-- A row of the `users` table (the fields the core reads). -/
structure UserRec where
  id : String
  email : String
  full_name : String
deriving DecidableEq

/-- A row of the `payment_methods` table (the fields the core reads). -/
structure PaymentMethod where
  id : String
  user_id : String
deriving DecidableEq

/-- A row of the `refunds` table (the fields the core reads). -/
structure Refund where
  id : String
  transaction_id : String
deriving DecidableEq

/-- A row of the `transaction_events` audit table. -/
structure TransactionEvent where
  transaction_id : String
  event_type : String
  from_value : Option String := none
  to_value : Option String := none
deriving DecidableEq

/-- The relational store: users, payment methods, transactions, audit
events and refunds. -/
structure Db where
  users : List UserRec := []
  payment_methods : List PaymentMethod := []
  transactions : List Transaction := []
  transaction_events : List TransactionEvent := []
  refunds : List Refund := []
deriving DecidableEq

/-- Events published on the in-process event bus.  Optional owner-contact
fields model fields that are `undefined` when the related row is absent. -/
inductive BusEvent where
  | transactionCreated (transactionId userId : String) (amount : Int)
      (currency : String) (description : Option String)
      (paymentMethodId : Option String) : BusEvent
  | paymentLinkCreated (transactionId userId checkoutUrl qrCode : String)
      (orderCode : Option Int) : BusEvent
  | statusUpdated (transactionId status : String)
      (shouldCancelTimeout : Bool) : BusEvent
  | transactionFailed (transactionId : Option String) (reason : String)
      (userId : Option String) (email fullName : Option String)
      (amount : Option Int) : BusEvent
  | paymentSuccess (userId : Option String) (email fullName : Option String)
      (amount : Int) (message : String) : BusEvent
  | paymentFailed (userId : Option String) (email fullName : Option String)
      (amount : Int) (reason : String) : BusEvent
deriving DecidableEq

/-- Service exceptions: `NotFoundException`, `BadRequestException` and
plain infrastructure / provider errors. -/
inductive ServiceError where
  | notFound (message : String) : ServiceError
  | badRequest (message : String) : ServiceError
  | external (message : String) : ServiceError
deriving DecidableEq

/-- The `error.message` of a thrown exception. -/
def ServiceError.message : ServiceError → String
  | .notFound m => m
  | .badRequest m => m
  | .external m => m

/-- Whether a thrown exception is a `BadRequestException`. -/
def ServiceError.isBadRequest : ServiceError → Bool
  | .badRequest _ => true
  | _ => false

/-- Result of one service operation: the state after the call, the bus
events emitted during it, and its return value or thrown exception. -/
structure OpResult (α : Type) where
  db : Db
  events : List BusEvent
  result : Except ServiceError α

/-- Whether an `Except` value is a success. -/
def isOk {α : Type} : Except ServiceError α → Bool
  | .ok _ => true
  | .error _ => false

/-- Model of `prisma.transactions.findUnique (where id)`. -/
def findTransactionById (db : Db) (id : String) : Option Transaction :=
  db.transactions.find? (fun t => t.id == id)

/-- Model of `prisma.transactions.findFirst (where external_transaction_id)`. -/
def findTransactionByExternalId (db : Db) (ext : Int) : Option Transaction :=
  db.transactions.find? (fun t => t.external_transaction_id == some ext)

/-- Model of `prisma.users.findUnique (where id)`. -/
def lookupUser (db : Db) (uid : String) : Option UserRec :=
  db.users.find? (fun u => u.id == uid)

/-- Status of the transaction row with the given id, if present. -/
def statusOf (db : Db) (id : String) : Option String :=
  (findTransactionById db id).map (fun t => t.status)

/-- The `completed_at` column of each transaction row, in row order. -/
def completedAtColumn (db : Db) : List (Option Nat) :=
  db.transactions.map (fun t => t.completed_at)

/-- Fields of `CreateTransactionDto` used by the current
`TransactionService.create` (it ignores the dto's `status` and
`gateway_response` and always inserts `PENDING` and a JSON null). -/
structure CreateTransactionDto where
  payment_method_id : Option String := none
  amount : Int := 0
  currency : Option String := none
  description : Option String := none
  gateway_provider : Option String := none
  ip_address : Option String := none
  user_agent : Option String := none
  device_id : Option String := none
deriving DecidableEq

/-- Model of `createTransactionDto.currency || 'VND'` (JavaScript falsy default). -/
def currencyOrDefault : Option String → String
  | some c => if c == "" then "VND" else c
  | none => "VND"

/-- Fields of `UpdateTransactionDto` (a partial `CreateTransactionDto`
plus gateway / fraud / job fields); `none` models an absent property. -/
structure UpdateTransactionDto where
  payment_method_id : Option String := none
  amount : Option Int := none
  currency : Option String := none
  description : Option String := none
  status : Option String := none
  gateway_provider : Option String := none
  ip_address : Option String := none
  user_agent : Option String := none
  device_id : Option String := none
  gateway_response : Option GatewayPayload := none
  external_transaction_id : Option Int := none
  fraud_score : Option Int := none
  fraud_decision : Option String := none
  fraud_provider : Option String := none
  job_id : Option String := none
deriving DecidableEq

/-- Prisma semantics of `update (data: dto)`: every property present on
the dto overwrites the column, absent properties are left alone. -/
def applyPatch (t : Transaction) (d : UpdateTransactionDto) : Transaction :=
  { t with
    payment_method_id :=
      match d.payment_method_id with
      | some v => some v
      | none => t.payment_method_id,
    amount := d.amount.getD t.amount,
    currency := d.currency.getD t.currency,
    description :=
      match d.description with
      | some v => some v
      | none => t.description,
    status := d.status.getD t.status,
    gateway_provider :=
      match d.gateway_provider with
      | some v => some v
      | none => t.gateway_provider,
    ip_address :=
      match d.ip_address with
      | some v => some v
      | none => t.ip_address,
    user_agent :=
      match d.user_agent with
      | some v => some v
      | none => t.user_agent,
    device_id :=
      match d.device_id with
      | some v => some v
      | none => t.device_id,
    gateway_response :=
      match d.gateway_response with
      | some v => some v
      | none => t.gateway_response,
    external_transaction_id :=
      match d.external_transaction_id with
      | some v => some v
      | none => t.external_transaction_id,
    fraud_score :=
      match d.fraud_score with
      | some v => some v
      | none => t.fraud_score,
    fraud_decision :=
      match d.fraud_decision with
      | some v => some v
      | none => t.fraud_decision,
    fraud_provider :=
      match d.fraud_provider with
      | some v => some v
      | none => t.fraud_provider,
    job_id :=
      match d.job_id with
      | some v => some v
      | none => t.job_id }

/-- The row inserted by the current `TransactionService.create`:
status hardcoded to PENDING, `gateway_response` set to JSON null. -/
def newTransaction (dto : CreateTransactionDto) (userId newId : String)
    (now : Nat) : Transaction :=
  { id := newId
    user_id := userId
    payment_method_id := dto.payment_method_id
    amount := dto.amount
    currency := currencyOrDefault dto.currency
    description := dto.description
    status := TransactionStatus.PENDING
    gateway_provider := dto.gateway_provider
    gateway_response := none
    ip_address := dto.ip_address
    user_agent := dto.user_agent
    device_id := dto.device_id
    created_at := now
    updated_at := now }

/-- The initial audit event written by `create`
(`event_type: 'CREATED'`, `to_value: PENDING`). -/
def createdAuditEvent (newId : String) : TransactionEvent :=
  { transaction_id := newId
    event_type := "CREATED"
    to_value := some TransactionStatus.PENDING }

/-- The `transaction.created` bus event emitted after the creation
transaction commits. -/
def createdBusEvent (dto : CreateTransactionDto) (userId newId : String)
    (now : Nat) : BusEvent :=
  BusEvent.transactionCreated newId userId
    (newTransaction dto userId newId now).amount
    (newTransaction dto userId newId now).currency
    (newTransaction dto userId newId now).description
    (newTransaction dto userId newId now).payment_method_id

/-- The payment-method validation of `create`: passes when no payment
method is referenced, or the referenced one exists and belongs to the
calling user. -/
def pmCheckOk (db : Db) (dto : CreateTransactionDto) (userId : String) : Bool :=
  match dto.payment_method_id with
  | none => true
  | some pmId =>
      match db.payment_methods.find? (fun p => p.id == pmId) with
      | none => false
      | some pm => pm.user_id == userId

/-- Commit phase of `create`: insert the PENDING row and its initial
audit event in one atomic unit, then emit `transaction.created`. -/
def createCommit (db : Db) (dto : CreateTransactionDto)
    (userId newId : String) (now : Nat) : OpResult Transaction :=
  ⟨{ db with
      transactions := db.transactions ++ [newTransaction dto userId newId now]
      transaction_events := db.transaction_events ++ [createdAuditEvent newId] },
    [createdBusEvent dto userId newId now],
    .ok (newTransaction dto userId newId now)⟩

/-- Model of `TransactionService.create` (current version, wrapped in
`prisma.$transaction`): verifies the owner and the optional payment
method, inserts the transaction in PENDING together with its initial
audit event atomically, and emits `transaction.created` only after the
unit commits.  Any failure rolls back and surfaces as a
`BadRequestException`. -/
def create (db : Db) (dto : CreateTransactionDto) (userId newId : String)
    (now : Nat) : OpResult Transaction :=
  if (lookupUser db userId).isNone then
    ⟨db, [], .error (.badRequest "User not found")⟩
  else
    match dto.payment_method_id with
    | some pmId =>
        match db.payment_methods.find? (fun p => p.id == pmId) with
        | none => ⟨db, [], .error (.badRequest "Payment method not found")⟩
        | some pm =>
            if pm.user_id != userId then
              ⟨db, [],
                .error (.badRequest "Payment method does not belong to this user")⟩
            else createCommit db dto userId newId now
    | none => createCommit db dto userId newId now

/-- Model of `TransactionService.updateStatus`: looks the transaction up, then in
one atomic unit unconditionally sets the status and appends a
`STATUS_CHANGED` audit event. -/
def updateStatus (db : Db) (transactionId status : String) :
    OpResult Transaction :=
  match findTransactionById db transactionId with
  | none => ⟨db, [], .error (.notFound "Transaction not found")⟩
  | some t =>
      ⟨{ db with
          transactions := db.transactions.map (fun u =>
            if u.id == transactionId then { u with status := status } else u)
          transaction_events := db.transaction_events ++
            [{ transaction_id := transactionId
               event_type := "STATUS_CHANGED"
               from_value := some t.status
               to_value := some status }] },
        [], .ok { t with status := status }⟩

/-- Model of `TransactionService.updateGatewayResponse`: finds a transaction by
its external reference, unconditionally stores the raw payload and the
new status on every matching row (`updateMany`), appends a
`GATEWAY_RESPONSE_UPDATED` audit event, and emits
`transaction.status_updated (shouldCancelTimeout: true)` when the new
status is COMPLETED, FAILED or CANCELLED. -/
def updateGatewayResponse (db : Db) (ext : Int)
    (gatewayResponse : GatewayPayload) (transactionStatus : String) :
    OpResult Nat :=
  match findTransactionByExternalId db ext with
  | none => ⟨db, [], .error (.notFound "Transaction not found")⟩
  | some t =>
      ⟨{ db with
          transactions := db.transactions.map (fun u =>
            if u.external_transaction_id == some ext then
              { u with gateway_response := some gatewayResponse
                       status := transactionStatus }
            else u)
          transaction_events := db.transaction_events ++
            [{ transaction_id := t.id
               event_type := "GATEWAY_RESPONSE_UPDATED"
               from_value := some t.status
               to_value := some transactionStatus }] },
        if transactionStatus == TransactionStatus.COMPLETED
            || transactionStatus == TransactionStatus.FAILED
            || transactionStatus == TransactionStatus.CANCELLED then
          [BusEvent.statusUpdated t.id transactionStatus true]
        else [],
        .ok (db.transactions.filter
          (fun u => u.external_transaction_id == some ext)).length⟩

/-- Model of `TransactionService.update` (current version): applies the partial
patch unconditionally and appends a `status_changed` audit event when
the resulting status is truthy and differs from the previous one. -/
def update (db : Db) (id : String) (dto : UpdateTransactionDto) :
    OpResult Transaction :=
  match findTransactionById db id with
  | none =>
      ⟨db, [],
        .error (.notFound ("Transaction with ID " ++ id ++ " not found"))⟩
  | some existingTransaction =>
      let transaction := applyPatch existingTransaction dto
      let db1 := { db with
        transactions := db.transactions.map (fun u =>
          if u.id == id then applyPatch u dto else u) }
      ⟨if transaction.status != "" &&
            transaction.status != existingTransaction.status then
          { db1 with
            transaction_events := db1.transaction_events ++
              [{ transaction_id := id
                 event_type := "status_changed"
                 from_value := some existingTransaction.status
                 to_value := dto.status }] }
        else db1,
        [], .ok transaction⟩

/-- The legacy `TransactionService.update` (first service version in
`transaction.service.ts`): same patching, plus it sets `completed_at`
when the patch status is `completed` and `completed_at` is still null,
and always refreshes `updated_at`. -/
def legacyUpdate (db : Db) (id : String) (dto : UpdateTransactionDto)
    (now : Nat) : OpResult Transaction :=
  match findTransactionById db id with
  | none =>
      ⟨db, [],
        .error (.notFound ("Transaction with ID " ++ id ++ " not found"))⟩
  | some existingTransaction =>
      let patchRow := fun (u : Transaction) =>
        if dto.status == some TransactionStatus.COMPLETED
            && existingTransaction.completed_at == none then
          { applyPatch u dto with updated_at := now, completed_at := some now }
        else { applyPatch u dto with updated_at := now }
      let db1 := { db with
        transactions := db.transactions.map (fun u =>
          if u.id == id then patchRow u else u) }
      ⟨if dto.status.isSome && dto.status != some existingTransaction.status then
          { db1 with
            transaction_events := db1.transaction_events ++
              [{ transaction_id := id
                 event_type := "status_changed"
                 from_value := some existingTransaction.status
                 to_value := dto.status }] }
        else db1,
        [], .ok (patchRow existingTransaction)⟩

/-- Model of `TransactionService.remove`: refuses (with a `BadRequestException`)
to delete a transaction that has refunds; otherwise deletes the row, its
audit events cascading. -/
def remove (db : Db) (id : String) : OpResult (String × String) :=
  match findTransactionById db id with
  | none =>
      ⟨db, [],
        .error (.notFound ("Transaction with ID " ++ id ++ " not found"))⟩
  | some _ =>
      if (db.refunds.filter (fun r => r.transaction_id == id)).length > 0 then
        ⟨db, [],
          .error (.badRequest "Cannot delete transaction with existing refunds")⟩
      else
        ⟨{ db with
            transactions := db.transactions.filter (fun t => !(t.id == id))
            transaction_events :=
              db.transaction_events.filter (fun e => !(e.transaction_id == id)) },
          [], .ok ("Transaction deleted successfully", id)⟩

/-- Model of `TransactionService.getUserIdByExternalTransactionId`: owner id and
owner-contact snapshot of the transaction carrying an order code. -/
def getUserIdByExternalTransactionId (db : Db) (orderCode : Int) :
    Except ServiceError (String × Option UserRec) :=
  match findTransactionByExternalId db orderCode with
  | none => .error (.notFound "Transaction not found")
  | some t => .ok (t.user_id, lookupUser db t.user_id)

/-- Payload of the `transaction.created` event. -/
structure TransactionCreatedPayload where
  transactionId : String
  userId : String
  amount : Int
  currency : String := "VND"
  description : Option String := none
  paymentMethodId : Option String := none
deriving DecidableEq

/-- The `data` object of a successful PayOS create-payment response. -/
structure PayosCreateResponse where
  orderCode : Int
  checkoutUrl : String
  qrCode : String
deriving DecidableEq

/-- Result of one run of `PayosListener.handleTransactionCreated`: final
state, emitted bus events, whether the provider create-payment call was
made, and the run's outcome. -/
structure ListenerOutcome where
  db : Db
  events : List BusEvent
  providerCalled : Bool
  result : Except ServiceError Unit

/-- The catch-block of `PayosListener.handleTransactionCreated`: set the
transaction to FAILED with an error-info gateway response, then emit
`transaction.failed`; an exception from this update itself propagates. -/
def listenerCatch (db : Db) (payload : TransactionCreatedPayload)
    (err : ServiceError) (providerCalled : Bool) (now : Nat) :
    ListenerOutcome :=
  let r := update db payload.transactionId
    { status := some TransactionStatus.FAILED
      gateway_response := some (.errorInfo err.message now) }
  match r.result with
  | .error e => ⟨r.db, [], providerCalled, .error e⟩
  | .ok _ =>
      ⟨r.db,
        [BusEvent.transactionFailed none
          ("Payment creation failed: " ++ err.message)
          (some payload.userId) none none (some payload.amount)],
        providerCalled, .ok ()⟩

/-- Model of `PayosListener.handleTransactionCreated`.  The two external effects
are parameters: `markProcessingFailure` injects an infrastructure
failure of the initial `updateStatus(PROCESSING)` call (the database may
fail even when the row exists), and `providerResult` is the outcome of
`payosService.createPayment`.  Control flow follows the source: every
step is inside one try block, so a failure of any step jumps to the
catch block. -/
def handleTransactionCreated (db : Db) (payload : TransactionCreatedPayload)
    (markProcessingFailure : Option String)
    (providerResult : Except String PayosCreateResponse) (now : Nat) :
    ListenerOutcome :=
  let step1 : Db × Option ServiceError :=
    match markProcessingFailure with
    | some msg => (db, some (.external msg))
    | none =>
        let r := updateStatus db payload.transactionId
          TransactionStatus.PROCESSING
        match r.result with
        | .error e => (db, some e)
        | .ok _ => (r.db, none)
  match step1 with
  | (db1, some err) => listenerCatch db1 payload err false now
  | (db1, none) =>
      match providerResult with
      | .error msg =>
          listenerCatch db1 payload
            (.external ("PayOS create payment failed: " ++ msg)) true now
      | .ok resp =>
          let r2 := update db1 payload.transactionId
            { status := some TransactionStatus.AWAITING_PAYMENT
              external_transaction_id := some resp.orderCode
              gateway_response := some
                (.providerResponse resp.orderCode resp.checkoutUrl resp.qrCode) }
          match r2.result with
          | .error e => listenerCatch r2.db payload e true now
          | .ok _ =>
              ⟨r2.db,
                [BusEvent.paymentLinkCreated payload.transactionId
                  payload.userId resp.checkoutUrl resp.qrCode
                  (some resp.orderCode)],
                true, .ok ()⟩

/-- Model of `TransactionTimeoutJobData`, the payload of a scheduled timeout job. -/
structure TimeoutJobData where
  transactionId : String
  externalTransactionId : Int
  userId : String
  amount : Int
deriving DecidableEq

/-- The BullMQ job descriptor built by
`QueueService.scheduleTransactionTimeout`. -/
structure TimeoutJob where
  name : String
  data : TimeoutJobData
  delay : Nat
  jobId : String
  attempts : Nat
  removeOnComplete : Bool
  removeOnFail : Bool
deriving DecidableEq

/-- Model of `QueueService.scheduleTransactionTimeout`: adds a `check-and-cancel`
job keyed `timeout-(transactionId)` with `delay = 60 * 1000`
milliseconds (the source comments call this value 15 minutes). -/
def scheduleTransactionTimeout (data : TimeoutJobData) : TimeoutJob :=
  { name := "check-and-cancel"
    data := data
    delay := 60 * 1000
    jobId := "timeout-" ++ data.transactionId
    attempts := 3
    removeOnComplete := true
    removeOnFail := false }

/-- Payload of the `payment.link_created` event. -/
structure PaymentLinkCreatedPayload where
  transactionId : String
  userId : String
  checkoutUrl : String
  qrCode : String
  orderCode : Option Int := none
deriving DecidableEq

/-- Model of `QueueListener.handlePaymentLinkCreated`: schedules the timeout job
when the payload carries an order code, and schedules nothing otherwise.
Returns the list of jobs added to the queue. -/
def handlePaymentLinkCreated (payload : PaymentLinkCreatedPayload) :
    List TimeoutJob :=
  match payload.orderCode with
  | some oc =>
      [scheduleTransactionTimeout
        { transactionId := payload.transactionId
          externalTransactionId := oc
          userId := payload.userId
          amount := 0 }]
  | none => []

/-- The object returned from the success branch and the skip branch of
`TransactionTimeoutProcessor.handleCheckAndCancel`. -/
structure TimeoutResult where
  success : Bool
  transactionId : String
  externalTransactionId : Option Int := none
  status : Option String := none
  message : String
deriving DecidableEq

/-- Result of one run of the timeout job handler: final state, emitted
bus events, the PayOS cancel calls attempted, and the outcome. -/
structure TimeoutHandlerOutcome where
  db : Db
  events : List BusEvent
  payosCancelCalls : List Int
  result : Except ServiceError TimeoutResult

/-- Model of `TransactionTimeoutProcessor.handleCheckAndCancel`: re-reads the
transaction; when it is still PENDING or AWAITING_PAYMENT it attempts
the PayOS cancel (whose failure is caught and only logged, so the
`payosCancelOk` parameter does not influence the rest), sets the status
to FAILED through `updateStatus`, and emits `transaction.failed`;
otherwise it is a no-op returning a skip marker.  Exceptions from the
re-read or the status update propagate (triggering a queue retry). -/
def handleCheckAndCancel (db : Db) (jobData : TimeoutJobData)
    (payosCancelOk : Bool) : TimeoutHandlerOutcome :=
  match findTransactionById db jobData.transactionId with
  | none =>
      ⟨db, [], [],
        .error (.notFound ("Transaction with ID " ++ jobData.transactionId
          ++ " not found"))⟩
  | some transaction =>
      if transaction.status == TransactionStatus.PENDING
          || transaction.status == TransactionStatus.AWAITING_PAYMENT then
        let r := updateStatus db jobData.transactionId
          TransactionStatus.FAILED
        match r.result with
        | .error e =>
            ⟨r.db, r.events, [jobData.externalTransactionId], .error e⟩
        | .ok _ =>
            let owner := lookupUser db transaction.user_id
            ⟨r.db,
              r.events ++
                [BusEvent.transactionFailed (some jobData.transactionId)
                  "Transaction cancelled due to timeout"
                  (some transaction.user_id)
                  (owner.map (fun u => u.email))
                  (owner.map (fun u => u.full_name))
                  (some transaction.amount)],
              [jobData.externalTransactionId],
              .ok { success := true
                    transactionId := jobData.transactionId
                    externalTransactionId := some jobData.externalTransactionId
                    message := "Transaction cancelled due to timeout" }⟩
      else
        ⟨db, [], [],
          .ok { success := false
                transactionId := jobData.transactionId
                status := some transaction.status
                message := "Transaction already processed, skipping timeout" }⟩

/-- Model of `PayosService.handleWebhook` (current version): resolves the owner by
the order code, then branches on the provider result code: `"00"` stores
the payload with status COMPLETED and emits `payment.success`, anything
else stores it with status FAILED and emits `payment.failed`. -/
def handleWebhook (db : Db) (payload : WebhookBody) : OpResult Unit :=
  match getUserIdByExternalTransactionId db payload.orderCode with
  | .error e => ⟨db, [], .error e⟩
  | .ok (uid, owner) =>
      if payload.code == "00" then
        let r := updateGatewayResponse db payload.orderCode
          (.webhook payload) TransactionStatus.COMPLETED
        match r.result with
        | .error e => ⟨r.db, r.events, .error e⟩
        | .ok _ =>
            ⟨r.db,
              r.events ++
                [BusEvent.paymentSuccess (some uid)
                  (owner.map (fun u => u.email))
                  (owner.map (fun u => u.full_name))
                  payload.amount "Payment successful"],
              .ok ()⟩
      else
        let r := updateGatewayResponse db payload.orderCode
          (.webhook payload) TransactionStatus.FAILED
        match r.result with
        | .error e => ⟨r.db, r.events, .error e⟩
        | .ok _ =>
            ⟨r.db,
              r.events ++
                [BusEvent.paymentFailed (some uid)
                  (owner.map (fun u => u.email))
                  (owner.map (fun u => u.full_name))
                  payload.amount
                  ("Payment failed with code: " ++ payload.code ++ " - "
                    ++ payload.desc)],
              .ok ()⟩

/-- All rows carrying the given id have the given status. -/
def allWithIdHaveStatus (db : Db) (id s : String) : Bool :=
  db.transactions.all (fun u => u.id != id || u.status == s)

/-- All rows carrying the given external reference have the given status. -/
def allWithExtHaveStatus (db : Db) (e : Int) (s : String) : Bool :=
  db.transactions.all
    (fun u => u.external_transaction_id != some e || u.status == s)

/-- The `completed_at` of the row with the given id, if present. -/
def completedAtOf (db : Db) (id : String) : Option (Option Nat) :=
  (findTransactionById db id).map (fun t => t.completed_at)

theorem find?_map_pred (l : List Transaction) (f : Transaction → Transaction)
    (p : Transaction → Bool) (hf : ∀ u, p (f u) = p u) :
    (l.map f).find? p = (l.find? p).map f := by
  induction l with
  | nil => rfl
  | cons a l ih =>
      cases hpa : p a
      · have hfa : p (f a) = false := by rw [hf a, hpa]
        simp [List.find?_cons, hpa, hfa, ih]
      · have hfa : p (f a) = true := by rw [hf a, hpa]
        simp [List.find?_cons, hpa, hfa]

theorem updateStatus_db_transactions (db : Db) (id s : String)
    (t : Transaction) (hf : findTransactionById db id = some t) :
    (updateStatus db id s).db.transactions
      = db.transactions.map
          (fun u => if u.id == id then { u with status := s } else u) := by
  unfold updateStatus
  rw [hf]

theorem updateStatus_db_events (db : Db) (id s : String)
    (t : Transaction) (hf : findTransactionById db id = some t) :
    (updateStatus db id s).db.transaction_events
      = db.transaction_events ++
          [{ transaction_id := id
             event_type := "STATUS_CHANGED"
             from_value := some t.status
             to_value := some s }] := by
  unfold updateStatus
  rw [hf]

theorem updateStatus_result (db : Db) (id s : String)
    (t : Transaction) (hf : findTransactionById db id = some t) :
    (updateStatus db id s).result = .ok { t with status := s } := by
  unfold updateStatus
  rw [hf]

theorem findById_after_updateStatus (db : Db) (id s : String)
    (t : Transaction) (hf : findTransactionById db id = some t) :
    findTransactionById (updateStatus db id s).db id
      = some { t with status := s } := by
  have hf' : db.transactions.find? (fun u => u.id == id) = some t := hf
  have hid : (t.id == id) = true := by
    have h := List.find?_some hf'
    exact h
  unfold findTransactionById
  rw [updateStatus_db_transactions db id s t hf]
  rw [find?_map_pred _ _ _
    (fun u => by by_cases h : (u.id == id) = true <;> simp [h])]
  rw [hf']
  have hid' : t.id = id := by simpa using hid
  simp [hid']

theorem statusOf_updateStatus (db : Db) (id s : String)
    (t : Transaction) (hf : findTransactionById db id = some t) :
    statusOf (updateStatus db id s).db id = some s := by
  unfold statusOf
  rw [findById_after_updateStatus db id s t hf]
  rfl

theorem update_db_transactions (db : Db) (id : String)
    (dto : UpdateTransactionDto) (t : Transaction)
    (hf : findTransactionById db id = some t) :
    (update db id dto).db.transactions
      = db.transactions.map
          (fun u => if u.id == id then applyPatch u dto else u) := by
  unfold update
  rw [hf]
  dsimp only
  split <;> rfl

theorem applyPatch_id (u : Transaction) (dto : UpdateTransactionDto) :
    (applyPatch u dto).id = u.id := rfl

theorem applyPatch_status (u : Transaction) (dto : UpdateTransactionDto)
    (s : String) (hs : dto.status = some s) :
    (applyPatch u dto).status = s := by
  simp [applyPatch, hs]

theorem update_result (db : Db) (id : String) (dto : UpdateTransactionDto)
    (t : Transaction) (hf : findTransactionById db id = some t) :
    (update db id dto).result = .ok (applyPatch t dto) := by
  unfold update
  rw [hf]

theorem findById_after_update (db : Db) (id : String)
    (dto : UpdateTransactionDto) (t : Transaction)
    (hf : findTransactionById db id = some t) :
    findTransactionById (update db id dto).db id
      = some (applyPatch t dto) := by
  have hf' : db.transactions.find? (fun u => u.id == id) = some t := hf
  have hid : (t.id == id) = true := by
    have h := List.find?_some hf'
    exact h
  unfold findTransactionById
  rw [update_db_transactions db id dto t hf]
  rw [find?_map_pred _ _ _
    (fun u => by by_cases h : (u.id == id) = true <;> simp [h, applyPatch_id])]
  rw [hf']
  have hid' : t.id = id := by simpa using hid
  simp [hid']

theorem gw_db_transactions (db : Db) (e : Int) (g : GatewayPayload)
    (s : String) (t : Transaction)
    (hf : findTransactionByExternalId db e = some t) :
    (updateGatewayResponse db e g s).db.transactions
      = db.transactions.map (fun u =>
          if u.external_transaction_id == some e then
            { u with gateway_response := some g, status := s }
          else u) := by
  unfold updateGatewayResponse
  rw [hf]

theorem gw_db_events (db : Db) (e : Int) (g : GatewayPayload)
    (s : String) (t : Transaction)
    (hf : findTransactionByExternalId db e = some t) :
    (updateGatewayResponse db e g s).db.transaction_events
      = db.transaction_events ++
          [{ transaction_id := t.id
             event_type := "GATEWAY_RESPONSE_UPDATED"
             from_value := some t.status
             to_value := some s }] := by
  unfold updateGatewayResponse
  rw [hf]

theorem gw_result_ok (db : Db) (e : Int) (g : GatewayPayload)
    (s : String) (t : Transaction)
    (hf : findTransactionByExternalId db e = some t) :
    isOk (updateGatewayResponse db e g s).result = true := by
  unfold updateGatewayResponse
  rw [hf]
  rfl

theorem findByExt_after_gw (db : Db) (e : Int) (g : GatewayPayload)
    (s : String) (t : Transaction)
    (hf : findTransactionByExternalId db e = some t) :
    findTransactionByExternalId (updateGatewayResponse db e g s).db e
      = some { t with gateway_response := some g, status := s } := by
  have hf' : db.transactions.find?
      (fun u => u.external_transaction_id == some e) = some t := hf
  have hext : (t.external_transaction_id == some e) = true := by
    have h := List.find?_some hf'
    exact h
  unfold findTransactionByExternalId
  rw [gw_db_transactions db e g s t hf]
  rw [find?_map_pred _ _ _
    (fun u => by
      by_cases h : (u.external_transaction_id == some e) = true <;> simp [h])]
  rw [hf']
  have hext' : t.external_transaction_id = some e := by simpa using hext
  simp [hext']

theorem all_map_branch (l : List Transaction)
    (p : Transaction → Bool) (f : Transaction → Transaction)
    (q : Transaction → Bool)
    (h1 : ∀ u, p u = true → q (f u) = true)
    (h2 : ∀ u, p u = false → q u = true) :
    ((l.map fun u => if p u then f u else u).all q) = true := by
  rw [List.all_eq_true]
  intro x hx
  rw [List.mem_map] at hx
  obtain ⟨u, _, rfl⟩ := hx
  by_cases hp : p u = true
  · simp [hp, h1 u hp]
  · have hp' : p u = false := by revert hp; cases p u <;> simp
    simp [hp', h2 u hp']

theorem all_of_find?_none (l : List Transaction)
    (p : Transaction → Bool) (q : Transaction → Bool)
    (hn : l.find? p = none) (h : ∀ u, p u = false → q u = true) :
    l.all q = true := by
  rw [List.all_eq_true]
  intro x hx
  rw [List.find?_eq_none] at hn
  have := hn x hx
  exact h x (by revert this; cases p x <;> simp)

theorem updateStatus_db_of_notFound (db : Db) (id s : String)
    (hf : findTransactionById db id = none) :
    (updateStatus db id s).db = db := by
  unfold updateStatus
  rw [hf]

theorem update_db_of_notFound (db : Db) (id : String)
    (dto : UpdateTransactionDto) (hf : findTransactionById db id = none) :
    (update db id dto).db = db := by
  unfold update
  rw [hf]

theorem gw_db_of_notFound (db : Db) (e : Int) (g : GatewayPayload)
    (s : String) (hf : findTransactionByExternalId db e = none) :
    (updateGatewayResponse db e g s).db = db := by
  unfold updateGatewayResponse
  rw [hf]

/-- Shared fixture: the owning user of the concrete databases below. -/
def u1 : UserRec :=
  { id := "u1", email := "owner@example.com", full_name := "Owner" }

/-- Shared fixture: a transaction already in the terminal status
`completed`. -/
def txCompleted : Transaction :=
  { id := "t1", user_id := "u1", amount := 100
    status := TransactionStatus.COMPLETED }

/-- Shared fixture: a store holding `txCompleted`. -/
def dbCompleted : Db := { users := [u1], transactions := [txCompleted] }

/-- C1 counterexample: `updateStatus` succeeds on a transaction whose
status is the terminal `completed` and leaves it in the non-terminal
status `pending`, so terminality is not preserved by the Transaction
Service's mutating operations. -/
theorem updateStatus_moves_terminal_to_nonterminal :
    (findTransactionById dbCompleted "t1").map
        (fun t => isTerminalStatus t.status) = some true
  ∧ isOk (updateStatus dbCompleted "t1" TransactionStatus.PENDING).result
      = true
  ∧ statusOf (updateStatus dbCompleted "t1" TransactionStatus.PENDING).db "t1"
      = some TransactionStatus.PENDING
  ∧ isTerminalStatus TransactionStatus.PENDING = false := by decide

/-- C1 (amended): `updateStatus`, `update` and `updateGatewayResponse`
write the requested status unconditionally — after any of them, every
row they target carries exactly the requested status, regardless of
whether the previous status was terminal.  Terminality of the status is
not an invariant enforced by the Transaction Service. -/
theorem transactionService_status_write_unconditional
    (db : Db) (id s : String) (e : Int) (g : GatewayPayload)
    (dto : UpdateTransactionDto) (hdto : dto.status = some s) :
    allWithIdHaveStatus (updateStatus db id s).db id s = true
  ∧ allWithIdHaveStatus (update db id dto).db id s = true
  ∧ allWithExtHaveStatus (updateGatewayResponse db e g s).db e s = true := by
  refine ⟨?_, ?_, ?_⟩
  · unfold allWithIdHaveStatus
    cases hf : findTransactionById db id with
    | none =>
        rw [updateStatus_db_of_notFound db id s hf]
        exact all_of_find?_none _ _ _ hf
          (fun u hu => by simp only [bne, hu, Bool.not_false, Bool.true_or])
    | some t =>
        rw [updateStatus_db_transactions db id s t hf]
        refine all_map_branch _ _ _ _ (fun u hu => by simp)
          (fun u hu => by simp only [bne, hu, Bool.not_false, Bool.true_or])
  · unfold allWithIdHaveStatus
    cases hf : findTransactionById db id with
    | none =>
        rw [update_db_of_notFound db id dto hf]
        exact all_of_find?_none _ _ _ hf
          (fun u hu => by simp only [bne, hu, Bool.not_false, Bool.true_or])
    | some t =>
        rw [update_db_transactions db id dto t hf]
        refine all_map_branch _ _ _ _
          (fun u hu => by simp [applyPatch_status u dto s hdto])
          (fun u hu => by simp only [bne, hu, Bool.not_false, Bool.true_or])
  · unfold allWithExtHaveStatus
    cases hf : findTransactionByExternalId db e with
    | none =>
        rw [gw_db_of_notFound db e g s hf]
        exact all_of_find?_none _ _ _ hf
          (fun u hu => by simp only [bne, hu, Bool.not_false, Bool.true_or])
    | some t =>
        rw [gw_db_transactions db e g s t hf]
        refine all_map_branch _ _ _ _ (fun u hu => by simp)
          (fun u hu => by simp only [bne, hu, Bool.not_false, Bool.true_or])

/-- Witness for the amended C1 theorem at a concrete store. -/
theorem transactionService_status_write_unconditional_witness :
    allWithIdHaveStatus
      (updateStatus dbCompleted "t1" TransactionStatus.PENDING).db "t1"
      TransactionStatus.PENDING = true
  ∧ allWithIdHaveStatus
      (update dbCompleted "t1"
        { status := some TransactionStatus.PENDING }).db "t1"
      TransactionStatus.PENDING = true
  ∧ allWithExtHaveStatus
      (updateGatewayResponse dbCompleted 9 GatewayPayload.jsonNull
        TransactionStatus.PENDING).db 9 TransactionStatus.PENDING = true :=
  transactionService_status_write_unconditional dbCompleted "t1"
    TransactionStatus.PENDING 9 GatewayPayload.jsonNull
    { status := some TransactionStatus.PENDING } rfl

theorem updateStatus_events (db : Db) (id s : String) :
    (updateStatus db id s).events = [] := by
  unfold updateStatus
  cases hf : findTransactionById db id <;> rfl

theorem handleCheckAndCancel_pendingBranch (db : Db) (jd : TimeoutJobData)
    (ok : Bool) (t : Transaction)
    (hf : findTransactionById db jd.transactionId = some t)
    (hc : (t.status == TransactionStatus.PENDING
        || t.status == TransactionStatus.AWAITING_PAYMENT) = true) :
    handleCheckAndCancel db jd ok =
      ⟨(updateStatus db jd.transactionId TransactionStatus.FAILED).db,
        [BusEvent.transactionFailed (some jd.transactionId)
          "Transaction cancelled due to timeout" (some t.user_id)
          ((lookupUser db t.user_id).map (fun u => u.email))
          ((lookupUser db t.user_id).map (fun u => u.full_name))
          (some t.amount)],
        [jd.externalTransactionId],
        .ok { success := true
              transactionId := jd.transactionId
              externalTransactionId := some jd.externalTransactionId
              message := "Transaction cancelled due to timeout" }⟩ := by
  simp only [handleCheckAndCancel, hf, if_pos hc,
    updateStatus_result db jd.transactionId TransactionStatus.FAILED t hf,
    updateStatus_events db jd.transactionId TransactionStatus.FAILED,
    List.nil_append]

/-- C2: when the freshly re-read status of the transaction is neither
PENDING nor AWAITING_PAYMENT, the timeout job handler leaves the store
untouched, emits no bus event, attempts no remote cancel, and returns
the marker saying the timeout was a no-op. -/
theorem timeout_handler_noop_when_resolved (db : Db) (jd : TimeoutJobData)
    (ok : Bool) (t : Transaction)
    (hf : findTransactionById db jd.transactionId = some t)
    (h1 : t.status ≠ TransactionStatus.PENDING)
    (h2 : t.status ≠ TransactionStatus.AWAITING_PAYMENT) :
    handleCheckAndCancel db jd ok =
      ⟨db, [], [],
        .ok { success := false
              transactionId := jd.transactionId
              status := some t.status
              message := "Transaction already processed, skipping timeout" }⟩ := by
  have hc : ¬((t.status == TransactionStatus.PENDING
      || t.status == TransactionStatus.AWAITING_PAYMENT) = true) := by
    simp [h1, h2]
  simp only [handleCheckAndCancel, hf]
  rw [if_neg hc]

/-- Witness for the C2 theorem: a completed transaction makes the
timeout handler a pure no-op. -/
theorem timeout_handler_noop_when_resolved_witness :
    handleCheckAndCancel dbCompleted
        { transactionId := "t1", externalTransactionId := 5
          userId := "u1", amount := 100 } true =
      ⟨dbCompleted, [], [],
        .ok { success := false
              transactionId := "t1"
              status := some TransactionStatus.COMPLETED
              message := "Transaction already processed, skipping timeout" }⟩ :=
  timeout_handler_noop_when_resolved dbCompleted
    { transactionId := "t1", externalTransactionId := 5
      userId := "u1", amount := 100 } true txCompleted
    (by decide) (by decide) (by decide)

/-- C3: on a transaction still PENDING or AWAITING_PAYMENT, the outcome
of the remote PayOS cancel call makes no difference to the handler
(failure is absorbed), and the handler still sets the transaction to
FAILED via `updateStatus` and emits the `transaction.failed` event with
reason "Transaction cancelled due to timeout". -/
theorem timeout_handler_absorbs_remote_cancel_failure (db : Db)
    (jd : TimeoutJobData) (t : Transaction)
    (hf : findTransactionById db jd.transactionId = some t)
    (hst : t.status = TransactionStatus.PENDING
        ∨ t.status = TransactionStatus.AWAITING_PAYMENT) :
    handleCheckAndCancel db jd false = handleCheckAndCancel db jd true
  ∧ statusOf (handleCheckAndCancel db jd false).db jd.transactionId
      = some TransactionStatus.FAILED
  ∧ (handleCheckAndCancel db jd false).events
      = [BusEvent.transactionFailed (some jd.transactionId)
          "Transaction cancelled due to timeout" (some t.user_id)
          ((lookupUser db t.user_id).map (fun u => u.email))
          ((lookupUser db t.user_id).map (fun u => u.full_name))
          (some t.amount)]
  ∧ (handleCheckAndCancel db jd false).result
      = .ok { success := true
              transactionId := jd.transactionId
              externalTransactionId := some jd.externalTransactionId
              message := "Transaction cancelled due to timeout" } := by
  have hc : (t.status == TransactionStatus.PENDING
      || t.status == TransactionStatus.AWAITING_PAYMENT) = true := by
    cases hst with
    | inl h => simp [h]
    | inr h => simp [h]
  have hbr := handleCheckAndCancel_pendingBranch db jd false t hf hc
  refine ⟨rfl, ?_, ?_, ?_⟩
  · rw [hbr]
    exact statusOf_updateStatus db jd.transactionId
      TransactionStatus.FAILED t hf
  · rw [hbr]
  · rw [hbr]

/-- Shared fixture: a transaction still awaiting payment, carrying an
external order code. -/
def txAwaiting : Transaction :=
  { id := "t2", user_id := "u1", amount := 250
    status := TransactionStatus.AWAITING_PAYMENT
    external_transaction_id := some 41 }

/-- Shared fixture: a store holding `txAwaiting`. -/
def dbAwaiting : Db := { users := [u1], transactions := [txAwaiting] }

/-- Witness for the C3 theorem on a concrete awaiting-payment store. -/
theorem timeout_handler_absorbs_remote_cancel_failure_witness :
    (handleCheckAndCancel dbAwaiting
        { transactionId := "t2", externalTransactionId := 41
          userId := "u1", amount := 250 } false
      = handleCheckAndCancel dbAwaiting
        { transactionId := "t2", externalTransactionId := 41
          userId := "u1", amount := 250 } true)
  ∧ statusOf (handleCheckAndCancel dbAwaiting
        { transactionId := "t2", externalTransactionId := 41
          userId := "u1", amount := 250 } false).db "t2"
      = some TransactionStatus.FAILED :=
  have h := timeout_handler_absorbs_remote_cancel_failure dbAwaiting
    { transactionId := "t2", externalTransactionId := 41
      userId := "u1", amount := 250 } txAwaiting (by decide) (Or.inr rfl)
  ⟨h.1, h.2.1⟩

/-- Shared fixture: a store holding only the owner. -/
def dbUserOnly : Db := { users := [u1] }

/-- C4 counterexample: on a valid input the atomic `create` writes its
single initial audit event with `event_type` "CREATED", not "created"
as the claim states. -/
theorem create_audit_event_type_uppercase :
    ((create dbUserOnly { amount := 100 } "u1" "t1" 0).db.transaction_events.map
        (fun e => e.event_type)) = ["CREATED"]
  ∧ "CREATED" ≠ "created" := by decide

/-- C4 (amended): for every valid creation input (owner exists, any
referenced payment method exists and belongs to the owner), `create`
atomically inserts the transaction in PENDING together with exactly one
initial audit event of type "CREATED", and emits `transaction.created`
only with that commit; on any failure nothing is emitted, the store is
unchanged, and the error surfaces as a `BadRequestException`. -/
theorem create_inserts_pending_atomically (db : Db)
    (dto : CreateTransactionDto) (userId newId : String) (now : Nat) :
    ((lookupUser db userId).isSome = true → pmCheckOk db dto userId = true →
      create db dto userId newId now =
        ⟨{ db with
            transactions :=
              db.transactions ++ [newTransaction dto userId newId now]
            transaction_events :=
              db.transaction_events ++ [createdAuditEvent newId] },
          [createdBusEvent dto userId newId now],
          .ok (newTransaction dto userId newId now)⟩
      ∧ (newTransaction dto userId newId now).status
          = TransactionStatus.PENDING
      ∧ (createdAuditEvent newId).event_type = "CREATED")
  ∧ (∀ err, (create db dto userId newId now).result = .error err →
      (create db dto userId newId now).events = []
      ∧ (create db dto userId newId now).db = db
      ∧ err.isBadRequest = true) := by
  constructor
  · intro hu hpm
    refine ⟨?_, rfl, rfl⟩
    unfold create
    cases hlu : lookupUser db userId with
    | none => rw [hlu] at hu; simp at hu
    | some u =>
        simp only [Option.isNone_some, Bool.false_eq_true, if_false]
        unfold pmCheckOk at hpm
        cases hpmid : dto.payment_method_id with
        | none => rfl
        | some pmId =>
            rw [hpmid] at hpm
            dsimp only at hpm ⊢
            cases hfindpm : db.payment_methods.find? (fun p => p.id == pmId) with
            | none => rw [hfindpm] at hpm; simp at hpm
            | some pm =>
                rw [hfindpm] at hpm
                dsimp only at hpm ⊢
                have hneq : ¬((pm.user_id != userId) = true) := by
                  simp [bne, hpm]
                rw [if_neg hneq]
                rfl
  · intro err herr
    unfold create at herr ⊢
    split at herr
    next hn =>
      rw [if_pos hn]
      have h1 : ServiceError.badRequest "User not found" = err := by
        simpa using herr
      refine ⟨rfl, rfl, ?_⟩
      rw [← h1]
      rfl
    next hn =>
      rw [if_neg hn]
      split at herr
      next pmId hpmid =>
        split at herr
        next hfindpm =>
          refine ⟨rfl, rfl, ?_⟩
          have h1 : ServiceError.badRequest "Payment method not found" = err := by
            simpa using herr
          rw [← h1]
          rfl
        next pm hfindpm =>
          split at herr
          next hneq =>
            rw [if_pos hneq]
            have h1 : ServiceError.badRequest
                "Payment method does not belong to this user" = err := by
              simpa using herr
            refine ⟨rfl, rfl, ?_⟩
            rw [← h1]
            rfl
          next hneq =>
            simp [createCommit] at herr
      next hpmid =>
        simp [createCommit] at herr

/-- Witness for the amended C4 theorem on a concrete valid input. -/
theorem create_inserts_pending_atomically_witness :
    create dbUserOnly { amount := 100 } "u1" "t1" 0 =
      ⟨{ dbUserOnly with
          transactions :=
            dbUserOnly.transactions ++ [newTransaction { amount := 100 } "u1" "t1" 0]
          transaction_events :=
            dbUserOnly.transaction_events ++ [createdAuditEvent "t1"] },
        [createdBusEvent { amount := 100 } "u1" "t1" 0],
        .ok (newTransaction { amount := 100 } "u1" "t1" 0)⟩
  ∧ (newTransaction { amount := 100 } "u1" "t1" 0).status
      = TransactionStatus.PENDING :=
  have h := create_inserts_pending_atomically dbUserOnly
    { amount := 100 } "u1" "t1" 0
  have h1 := h.1 (by decide) (by decide)
  ⟨h1.1, h1.2.1⟩

theorem allWithExt_after_gw (db : Db) (e : Int) (g : GatewayPayload)
    (s : String) :
    allWithExtHaveStatus (updateGatewayResponse db e g s).db e s = true := by
  unfold allWithExtHaveStatus
  cases hf : findTransactionByExternalId db e with
  | none =>
      rw [gw_db_of_notFound db e g s hf]
      exact all_of_find?_none _ _ _ hf
        (fun u hu => by simp only [bne, hu, Bool.not_false, Bool.true_or])
  | some t =>
      rw [gw_db_transactions db e g s t hf]
      refine all_map_branch _ _ _ _ (fun u hu => by simp)
        (fun u hu => by simp only [bne, hu, Bool.not_false, Bool.true_or])

/-- C5: applying `updateGatewayResponse` twice with the same external
reference and the same terminal status throws no exception either time,
and after the second application every row carrying that external
reference (in particular the transaction itself, which still exists)
has exactly that terminal status. -/
theorem updateGatewayResponse_terminal_idempotent (db : Db) (e : Int)
    (g : GatewayPayload) (s : String) (t : Transaction)
    (hterm : isTerminalStatus s = true)
    (hf : findTransactionByExternalId db e = some t) :
    isOk (updateGatewayResponse db e g s).result = true
  ∧ isOk (updateGatewayResponse
      (updateGatewayResponse db e g s).db e g s).result = true
  ∧ allWithExtHaveStatus (updateGatewayResponse
      (updateGatewayResponse db e g s).db e g s).db e s = true
  ∧ (findTransactionByExternalId (updateGatewayResponse
      (updateGatewayResponse db e g s).db e g s).db e).isSome = true := by
  have h1 := findByExt_after_gw db e g s t hf
  refine ⟨gw_result_ok db e g s t hf, gw_result_ok _ e g s _ h1,
    allWithExt_after_gw _ e g s, ?_⟩
  rw [findByExt_after_gw _ e g s _ h1]
  rfl

/-- Witness for the C5 theorem: a duplicate COMPLETED webhook write on
the awaiting-payment fixture. -/
theorem updateGatewayResponse_terminal_idempotent_witness :
    isOk (updateGatewayResponse dbAwaiting 41 GatewayPayload.jsonNull
        TransactionStatus.COMPLETED).result = true
  ∧ isOk (updateGatewayResponse
      (updateGatewayResponse dbAwaiting 41 GatewayPayload.jsonNull
        TransactionStatus.COMPLETED).db 41 GatewayPayload.jsonNull
        TransactionStatus.COMPLETED).result = true
  ∧ allWithExtHaveStatus (updateGatewayResponse
      (updateGatewayResponse dbAwaiting 41 GatewayPayload.jsonNull
        TransactionStatus.COMPLETED).db 41 GatewayPayload.jsonNull
        TransactionStatus.COMPLETED).db 41 TransactionStatus.COMPLETED = true
  ∧ (findTransactionByExternalId (updateGatewayResponse
      (updateGatewayResponse dbAwaiting 41 GatewayPayload.jsonNull
        TransactionStatus.COMPLETED).db 41 GatewayPayload.jsonNull
        TransactionStatus.COMPLETED).db 41).isSome = true :=
  updateGatewayResponse_terminal_idempotent dbAwaiting 41
    GatewayPayload.jsonNull TransactionStatus.COMPLETED txAwaiting
    (by decide) (by decide)

/-- C6 counterexample: completing a transaction through
`updateGatewayResponse` sets the status to COMPLETED but leaves
`completed_at` null — the first transition into COMPLETED does not set
the timestamp. -/
theorem completed_transition_leaves_completed_at_null :
    statusOf (updateGatewayResponse dbAwaiting 41 GatewayPayload.jsonNull
        TransactionStatus.COMPLETED).db "t2"
      = some TransactionStatus.COMPLETED
  ∧ completedAtOf (updateGatewayResponse dbAwaiting 41 GatewayPayload.jsonNull
        TransactionStatus.COMPLETED).db "t2" = some none := by decide

theorem map_completedAt_of_preserved (l : List Transaction)
    (f : Transaction → Transaction)
    (h : ∀ u, (f u).completed_at = u.completed_at) :
    (l.map f).map (fun t => t.completed_at)
      = l.map (fun t => t.completed_at) := by
  induction l with
  | nil => rfl
  | cons a l ih => simp [h a, ih]

theorem legacyUpdate_db_transactions (db : Db) (id : String)
    (dto : UpdateTransactionDto) (now : Nat) (t : Transaction)
    (hf : findTransactionById db id = some t) :
    (legacyUpdate db id dto now).db.transactions
      = db.transactions.map (fun u =>
          if u.id == id then
            (if dto.status == some TransactionStatus.COMPLETED
                && t.completed_at == none then
              { applyPatch u dto with
                  updated_at := now, completed_at := some now }
            else { applyPatch u dto with updated_at := now })
          else u) := by
  unfold legacyUpdate
  rw [hf]
  dsimp only
  split <;> rfl

theorem legacyUpdate_db_of_notFound (db : Db) (id : String)
    (dto : UpdateTransactionDto) (now : Nat)
    (hf : findTransactionById db id = none) :
    (legacyUpdate db id dto now).db = db := by
  unfold legacyUpdate
  rw [hf]

theorem findById_after_legacyUpdate (db : Db) (id : String)
    (dto : UpdateTransactionDto) (now : Nat) (t : Transaction)
    (hf : findTransactionById db id = some t) :
    findTransactionById (legacyUpdate db id dto now).db id
      = some (if dto.status == some TransactionStatus.COMPLETED
            && t.completed_at == none then
          { applyPatch t dto with updated_at := now, completed_at := some now }
        else { applyPatch t dto with updated_at := now }) := by
  have hf' : db.transactions.find? (fun u => u.id == id) = some t := hf
  have hid : (t.id == id) = true := by
    have h := List.find?_some hf'
    exact h
  unfold findTransactionById
  rw [legacyUpdate_db_transactions db id dto now t hf]
  rw [find?_map_pred _ _ _ (fun u => by
    by_cases h : (u.id == id) = true
    · cases hc : (dto.status == some TransactionStatus.COMPLETED
          && t.completed_at == none) <;> simp [h, hc, applyPatch_id]
    · simp [h])]
  rw [hf']
  have hid' : t.id = id := by simpa using hid
  simp [hid']

/-- C6 (amended): `updateStatus`, `update` and `updateGatewayResponse`
never touch `completed_at` — in particular a transaction whose status
first becomes COMPLETED through them keeps `completed_at` null.  Only
the legacy `update` path writes it: it leaves the column unchanged
whenever the patch status is not `completed`, it never changes or clears
a `completed_at` that is already set, and it sets `completed_at` to the
current time exactly when the patch status is `completed` and
`completed_at` is still null. -/
theorem completed_at_only_set_by_legacy_update (db : Db) (id s : String)
    (e : Int) (g : GatewayPayload) (dto : UpdateTransactionDto)
    (now c : Nat) (t : Transaction) :
    completedAtColumn (updateStatus db id s).db = completedAtColumn db
  ∧ completedAtColumn (update db id dto).db = completedAtColumn db
  ∧ completedAtColumn (updateGatewayResponse db e g s).db
      = completedAtColumn db
  ∧ (dto.status ≠ some TransactionStatus.COMPLETED →
      completedAtColumn (legacyUpdate db id dto now).db = completedAtColumn db)
  ∧ (findTransactionById db id = some t → t.completed_at = some c →
      completedAtOf (legacyUpdate db id dto now).db id = some (some c))
  ∧ (findTransactionById db id = some t → t.completed_at = none →
      dto.status = some TransactionStatus.COMPLETED →
      completedAtOf (legacyUpdate db id dto now).db id = some (some now)) := by
  refine ⟨?_, ?_, ?_, ?_, ?_, ?_⟩
  · unfold completedAtColumn
    cases hf : findTransactionById db id with
    | none => rw [updateStatus_db_of_notFound db id s hf]
    | some u =>
        rw [updateStatus_db_transactions db id s u hf]
        refine map_completedAt_of_preserved _ _ (fun v => by
          by_cases h : (v.id == id) = true <;> simp [h])
  · unfold completedAtColumn
    cases hf : findTransactionById db id with
    | none => rw [update_db_of_notFound db id dto hf]
    | some u =>
        rw [update_db_transactions db id dto u hf]
        refine map_completedAt_of_preserved _ _ (fun v => by
          by_cases h : (v.id == id) = true <;> simp [h, applyPatch])
  · unfold completedAtColumn
    cases hf : findTransactionByExternalId db e with
    | none => rw [gw_db_of_notFound db e g s hf]
    | some u =>
        rw [gw_db_transactions db e g s u hf]
        refine map_completedAt_of_preserved _ _ (fun v => by
          by_cases h : (v.external_transaction_id == some e) = true <;> simp [h])
  · intro hns
    unfold completedAtColumn
    cases hf : findTransactionById db id with
    | none => rw [legacyUpdate_db_of_notFound db id dto now hf]
    | some u =>
        rw [legacyUpdate_db_transactions db id dto now u hf]
        have hcond : (dto.status == some TransactionStatus.COMPLETED
            && u.completed_at == none) = false := by
          have : (dto.status == some TransactionStatus.COMPLETED) = false := by
            simpa using hns
          simp [this]
        rw [hcond]
        refine map_completedAt_of_preserved _ _ (fun v => by
          by_cases h : (v.id == id) = true <;> simp [h, applyPatch])
  · intro hfind hc
    unfold completedAtOf
    rw [findById_after_legacyUpdate db id dto now t hfind]
    have hcond : (dto.status == some TransactionStatus.COMPLETED
        && t.completed_at == none) = false := by
      simp [hc]
    rw [hcond]
    simp [applyPatch, hc]
  · intro hfind hnone hst
    unfold completedAtOf
    rw [findById_after_legacyUpdate db id dto now t hfind]
    have hcond : (dto.status == some TransactionStatus.COMPLETED
        && t.completed_at == none) = true := by
      simp [hst, hnone]
    rw [hcond]
    simp

/-- Shared fixture: a transaction already completed with its timestamp
set. -/
def txStamped : Transaction :=
  { id := "t3", user_id := "u1", amount := 10
    status := TransactionStatus.COMPLETED, completed_at := some 4 }

/-- Shared fixture: a store holding `txStamped`. -/
def dbStamped : Db := { users := [u1], transactions := [txStamped] }

/-- Witness for the amended C6 theorem: `updateStatus` leaves the
column alone; legacy `update` stamps a null `completed_at` on a
completed patch and preserves an already-set one. -/
theorem completed_at_only_set_by_legacy_update_witness :
    completedAtColumn (updateStatus dbAwaiting "t2"
        TransactionStatus.COMPLETED).db = completedAtColumn dbAwaiting
  ∧ completedAtOf (legacyUpdate dbAwaiting "t2"
        { status := some TransactionStatus.COMPLETED } 7).db "t2"
      = some (some 7)
  ∧ completedAtOf (legacyUpdate dbStamped "t3"
        { status := some TransactionStatus.COMPLETED } 9).db "t3"
      = some (some 4) :=
  have hA := completed_at_only_set_by_legacy_update dbAwaiting "t2"
    TransactionStatus.COMPLETED 41 GatewayPayload.jsonNull
    { status := some TransactionStatus.COMPLETED } 7 0 txAwaiting
  have hB := completed_at_only_set_by_legacy_update dbStamped "t3"
    TransactionStatus.COMPLETED 41 GatewayPayload.jsonNull
    { status := some TransactionStatus.COMPLETED } 9 4 txStamped
  ⟨hA.1, hA.2.2.2.2.2 (by decide) rfl rfl, hB.2.2.2.2.1 (by decide) rfl⟩

/-- Shared fixture: a freshly created pending transaction. -/
def txPending : Transaction :=
  { id := "t4", user_id := "u1", amount := 9
    status := TransactionStatus.PENDING }

/-- Shared fixture: a store holding `txPending`. -/
def dbPending : Db := { users := [u1], transactions := [txPending] }

/-- Shared fixture: a successful PayOS create-payment response. -/
def respOk : PayosCreateResponse :=
  { orderCode := 55, checkoutUrl := "https://pay.example/cb", qrCode := "QR" }

/-- C7 counterexample: when the initial mark-as-PROCESSING call fails,
the provider (configured here to succeed) is never called and the
transaction ends FAILED instead of AWAITING_PAYMENT — the mark step's
failure is fatal to the remaining steps, contrary to the claim. -/
theorem mark_processing_failure_skips_provider :
    (handleTransactionCreated dbPending
        { transactionId := "t4", userId := "u1", amount := 9 }
        (some "connection reset") (.ok respOk) 3).providerCalled = false
  ∧ statusOf (handleTransactionCreated dbPending
        { transactionId := "t4", userId := "u1", amount := 9 }
        (some "connection reset") (.ok respOk) 3).db "t4"
      = some TransactionStatus.FAILED := by decide

theorem statusOf_after_update (db : Db) (id : String)
    (dto : UpdateTransactionDto) (s : String) (t : Transaction)
    (hf : findTransactionById db id = some t) (hs : dto.status = some s) :
    statusOf (update db id dto).db id = some s := by
  unfold statusOf
  rw [findById_after_update db id dto t hf]
  simp [applyPatch_status t dto s hs]

theorem listenerCatch_spec (db : Db) (p : TransactionCreatedPayload)
    (err : ServiceError) (pc : Bool) (now : Nat) (t : Transaction)
    (hf : findTransactionById db p.transactionId = some t) :
    listenerCatch db p err pc now =
      ⟨(update db p.transactionId
          { status := some TransactionStatus.FAILED
            gateway_response := some (.errorInfo err.message now) }).db,
        [BusEvent.transactionFailed none
          ("Payment creation failed: " ++ err.message)
          (some p.userId) none none (some p.amount)],
        pc, .ok ()⟩ := by
  simp only [listenerCatch,
    update_result db p.transactionId
      { status := some TransactionStatus.FAILED
        gateway_response := some (.errorInfo err.message now) } t hf]

theorem handleTC_markFail (db : Db) (p : TransactionCreatedPayload)
    (msg : String) (pr : Except String PayosCreateResponse) (now : Nat) :
    handleTransactionCreated db p (some msg) pr now
      = listenerCatch db p (.external msg) false now := rfl

theorem handleTC_provider_error (db : Db) (p : TransactionCreatedPayload)
    (msg : String) (now : Nat) (t : Transaction)
    (hf : findTransactionById db p.transactionId = some t) :
    handleTransactionCreated db p none (.error msg) now
      = listenerCatch
          (updateStatus db p.transactionId TransactionStatus.PROCESSING).db p
          (.external ("PayOS create payment failed: " ++ msg)) true now := by
  unfold handleTransactionCreated
  simp only
    [updateStatus_result db p.transactionId TransactionStatus.PROCESSING t hf]

theorem handleTC_provider_ok (db : Db) (p : TransactionCreatedPayload)
    (resp : PayosCreateResponse) (now : Nat) (t : Transaction)
    (hf : findTransactionById db p.transactionId = some t) :
    handleTransactionCreated db p none (.ok resp) now
      = ⟨(update
            (updateStatus db p.transactionId TransactionStatus.PROCESSING).db
            p.transactionId
            { status := some TransactionStatus.AWAITING_PAYMENT
              external_transaction_id := some resp.orderCode
              gateway_response := some (.providerResponse resp.orderCode
                resp.checkoutUrl resp.qrCode) }).db,
          [BusEvent.paymentLinkCreated p.transactionId p.userId
            resp.checkoutUrl resp.qrCode (some resp.orderCode)],
          true, .ok ()⟩ := by
  have hf1 := findById_after_updateStatus db p.transactionId
    TransactionStatus.PROCESSING t hf
  unfold handleTransactionCreated
  simp only
    [updateStatus_result db p.transactionId TransactionStatus.PROCESSING t hf,
     update_result
       (updateStatus db p.transactionId TransactionStatus.PROCESSING).db
       p.transactionId
       { status := some TransactionStatus.AWAITING_PAYMENT
         external_transaction_id := some resp.orderCode
         gateway_response := some (.providerResponse resp.orderCode
           resp.checkoutUrl resp.qrCode) }
       { t with status := TransactionStatus.PROCESSING } hf1]

/-- C7 (amended): for any existing transaction, the orchestration
handler always terminates successfully with the transaction in
AWAITING_PAYMENT or FAILED — never PROCESSING — but a failure of the
initial mark-as-PROCESSING step diverts execution to the failure path:
the provider is not called and the transaction is set to FAILED with a
`transaction.failed` event, rather than the remaining steps running. -/
theorem payos_listener_never_leaves_processing (db : Db)
    (p : TransactionCreatedPayload) (mk : Option String)
    (pr : Except String PayosCreateResponse) (now : Nat) (t : Transaction)
    (hf : findTransactionById db p.transactionId = some t) :
    (statusOf (handleTransactionCreated db p mk pr now).db p.transactionId
        = some TransactionStatus.AWAITING_PAYMENT
      ∨ statusOf (handleTransactionCreated db p mk pr now).db p.transactionId
        = some TransactionStatus.FAILED)
  ∧ isOk (handleTransactionCreated db p mk pr now).result = true
  ∧ (∀ msg, mk = some msg →
      (handleTransactionCreated db p mk pr now).providerCalled = false
      ∧ statusOf (handleTransactionCreated db p mk pr now).db p.transactionId
          = some TransactionStatus.FAILED
      ∧ (handleTransactionCreated db p mk pr now).events
          = [BusEvent.transactionFailed none
              ("Payment creation failed: " ++ msg)
              (some p.userId) none none (some p.amount)]) := by
  cases mk with
  | some msg =>
      rw [handleTC_markFail db p msg pr now,
        listenerCatch_spec db p (.external msg) false now t hf]
      refine ⟨Or.inr ?_, rfl, ?_⟩
      · exact statusOf_after_update db p.transactionId _
          TransactionStatus.FAILED t hf rfl
      · intro m hm
        cases hm
        exact ⟨rfl,
          statusOf_after_update db p.transactionId _
            TransactionStatus.FAILED t hf rfl, rfl⟩
  | none =>
      cases pr with
      | error msg =>
          have hf1 := findById_after_updateStatus db p.transactionId
            TransactionStatus.PROCESSING t hf
          rw [handleTC_provider_error db p msg now t hf,
            listenerCatch_spec _ p _ true now _ hf1]
          refine ⟨Or.inr ?_, rfl, ?_⟩
          · exact statusOf_after_update _ p.transactionId _
              TransactionStatus.FAILED _ hf1 rfl
          · intro m hm
            cases hm
      | ok resp =>
          have hf1 := findById_after_updateStatus db p.transactionId
            TransactionStatus.PROCESSING t hf
          rw [handleTC_provider_ok db p resp now t hf]
          refine ⟨Or.inl ?_, rfl, ?_⟩
          · exact statusOf_after_update _ p.transactionId _
              TransactionStatus.AWAITING_PAYMENT _ hf1 rfl
          · intro m hm
            cases hm

/-- Witness for the amended C7 theorem at the pending fixture with a
failing mark step and a provider set to succeed. -/
theorem payos_listener_never_leaves_processing_witness :
    (statusOf (handleTransactionCreated dbPending
        { transactionId := "t4", userId := "u1", amount := 9 }
        (some "connection reset") (.ok respOk) 3).db "t4"
        = some TransactionStatus.AWAITING_PAYMENT
      ∨ statusOf (handleTransactionCreated dbPending
        { transactionId := "t4", userId := "u1", amount := 9 }
        (some "connection reset") (.ok respOk) 3).db "t4"
        = some TransactionStatus.FAILED)
  ∧ isOk (handleTransactionCreated dbPending
        { transactionId := "t4", userId := "u1", amount := 9 }
        (some "connection reset") (.ok respOk) 3).result = true :=
  have h := payos_listener_never_leaves_processing dbPending
    { transactionId := "t4", userId := "u1", amount := 9 }
    (some "connection reset") (.ok respOk) 3 txPending (by decide)
  ⟨h.1, h.2.1⟩

/-- C8: the scheduler keys the timeout job exactly
`timeout-(transactionId)` and schedules nothing when the order code is
absent, but the delay it passes is 60000 ms (1 minute) — not the 15
minutes (900000 ms) that the surrounding comments, the doc string and
the listener's log line all state. -/
theorem timeout_job_delay_is_one_minute :
    (handlePaymentLinkCreated
        { transactionId := "t1", userId := "u1", checkoutUrl := "c"
          qrCode := "q", orderCode := some 123 }).map (fun j => j.jobId)
      = ["timeout-t1"]
  ∧ (handlePaymentLinkCreated
        { transactionId := "t1", userId := "u1", checkoutUrl := "c"
          qrCode := "q", orderCode := some 123 }).map (fun j => j.delay)
      = [60000]
  ∧ (60000 : Nat) ≠ 15 * 60 * 1000
  ∧ handlePaymentLinkCreated
        { transactionId := "t1", userId := "u1", checkoutUrl := "c"
          qrCode := "q", orderCode := none } = [] := by decide

/-- C9: `remove` fails with the refund-conflict error and leaves the
store untouched whenever at least one refund references the
transaction; with zero refunds it deletes the transaction, cascades its
audit events, and succeeds. -/
theorem remove_refund_guard (db : Db) (id : String) (t : Transaction)
    (hf : findTransactionById db id = some t) :
    ((db.refunds.filter (fun r => r.transaction_id == id)).length > 0 →
      remove db id = ⟨db, [],
        .error (.badRequest "Cannot delete transaction with existing refunds")⟩)
  ∧ ((db.refunds.filter (fun r => r.transaction_id == id)).length = 0 →
      remove db id = ⟨{ db with
          transactions := db.transactions.filter (fun u => !(u.id == id))
          transaction_events :=
            db.transaction_events.filter
              (fun ev => !(ev.transaction_id == id)) },
        [], .ok ("Transaction deleted successfully", id)⟩) := by
  constructor
  · intro hr
    unfold remove
    rw [hf, if_pos hr]
  · intro hr
    unfold remove
    rw [hf, if_neg (by simp [hr])]

/-- Shared fixture: a refund attached to the completed transaction. -/
def refund1 : Refund := { id := "r1", transaction_id := "t1" }

/-- Shared fixture: a store whose transaction has one refund. -/
def dbRefunded : Db :=
  { users := [u1], transactions := [txCompleted], refunds := [refund1] }

/-- Witness for the C9 theorem: the refunded fixture is refused, the
refund-free fixture is deleted. -/
theorem remove_refund_guard_witness :
    remove dbRefunded "t1" = ⟨dbRefunded, [],
      .error (.badRequest "Cannot delete transaction with existing refunds")⟩
  ∧ remove dbPending "t4" = ⟨{ dbPending with
        transactions := dbPending.transactions.filter (fun u => !(u.id == "t4"))
        transaction_events :=
          dbPending.transaction_events.filter
            (fun ev => !(ev.transaction_id == "t4")) },
      [], .ok ("Transaction deleted successfully", "t4")⟩ :=
  ⟨(remove_refund_guard dbRefunded "t1" txCompleted (by decide)).1 (by decide),
   (remove_refund_guard dbPending "t4" txPending (by decide)).2 (by decide)⟩

/-- Whether a bus event is the cancel-timeout `transaction.status_updated`
notification. -/
def isCancelTimeoutEvent : BusEvent → Bool
  | .statusUpdated _ _ b => b
  | _ => false

theorem gw_result_eq (db : Db) (e : Int) (g : GatewayPayload) (s : String)
    (t : Transaction) (hf : findTransactionByExternalId db e = some t) :
    (updateGatewayResponse db e g s).result
      = .ok (db.transactions.filter
          (fun u => u.external_transaction_id == some e)).length := by
  unfold updateGatewayResponse
  rw [hf]

theorem gw_events_eq (db : Db) (e : Int) (g : GatewayPayload) (s : String)
    (t : Transaction) (hf : findTransactionByExternalId db e = some t) :
    (updateGatewayResponse db e g s).events
      = (if s == TransactionStatus.COMPLETED
            || s == TransactionStatus.FAILED
            || s == TransactionStatus.CANCELLED then
          [BusEvent.statusUpdated t.id s true]
        else []) := by
  unfold updateGatewayResponse
  rw [hf]

theorem handleWebhook_db_eq (db : Db) (w : WebhookBody) (tw : Transaction)
    (hw : findTransactionByExternalId db w.orderCode = some tw) :
    (handleWebhook db w).db
      = (updateGatewayResponse db w.orderCode (.webhook w)
          (if w.code == "00" then TransactionStatus.COMPLETED
            else TransactionStatus.FAILED)).db := by
  unfold handleWebhook getUserIdByExternalTransactionId
  rw [hw]
  dsimp only
  by_cases hc : (w.code == "00") = true
  · rw [if_pos hc, if_pos hc]
    simp only [gw_result_eq db w.orderCode (.webhook w)
      TransactionStatus.COMPLETED tw hw]
  · rw [if_neg hc, if_neg hc]
    simp only [gw_result_eq db w.orderCode (.webhook w)
      TransactionStatus.FAILED tw hw]

theorem handleWebhook_result_ok (db : Db) (w : WebhookBody)
    (tw : Transaction)
    (hw : findTransactionByExternalId db w.orderCode = some tw) :
    isOk (handleWebhook db w).result = true := by
  unfold handleWebhook getUserIdByExternalTransactionId
  rw [hw]
  dsimp only
  by_cases hc : (w.code == "00") = true
  · rw [if_pos hc]
    simp only [gw_result_eq db w.orderCode (.webhook w)
      TransactionStatus.COMPLETED tw hw]
    rfl
  · rw [if_neg hc]
    simp only [gw_result_eq db w.orderCode (.webhook w)
      TransactionStatus.FAILED tw hw]
    rfl

theorem handleWebhook_emits_cancel (db : Db) (w : WebhookBody)
    (tw : Transaction)
    (hw : findTransactionByExternalId db w.orderCode = some tw) :
    (handleWebhook db w).events.any isCancelTimeoutEvent = true := by
  unfold handleWebhook getUserIdByExternalTransactionId
  rw [hw]
  dsimp only
  by_cases hc : (w.code == "00") = true
  · rw [if_pos hc]
    simp only [gw_result_eq db w.orderCode (.webhook w)
      TransactionStatus.COMPLETED tw hw,
      gw_events_eq db w.orderCode (.webhook w)
      TransactionStatus.COMPLETED tw hw]
    simp [isCancelTimeoutEvent, TransactionStatus.COMPLETED]
  · rw [if_neg hc]
    simp only [gw_result_eq db w.orderCode (.webhook w)
      TransactionStatus.FAILED tw hw,
      gw_events_eq db w.orderCode (.webhook w)
      TransactionStatus.FAILED tw hw]
    simp [isCancelTimeoutEvent, TransactionStatus.FAILED]

theorem handleWebhook_events_len (db : Db) (w : WebhookBody)
    (tw : Transaction)
    (hw : findTransactionByExternalId db w.orderCode = some tw) :
    (handleWebhook db w).db.transaction_events.length
      = db.transaction_events.length + 1 := by
  rw [handleWebhook_db_eq db w tw hw]
  rw [gw_db_events db w.orderCode (.webhook w) _ tw hw]
  simp

theorem handleWebhook_preserves_ext (db : Db) (w : WebhookBody)
    (tw : Transaction)
    (hw : findTransactionByExternalId db w.orderCode = some tw) :
    findTransactionByExternalId (handleWebhook db w).db w.orderCode
      = some { tw with gateway_response := some (.webhook w)
                       status := if w.code == "00" then
                          TransactionStatus.COMPLETED
                        else TransactionStatus.FAILED } := by
  rw [handleWebhook_db_eq db w tw hw]
  exact findByExt_after_gw db w.orderCode (.webhook w) _ tw hw

/-- C10: every successful `updateStatus` and `updateGatewayResponse`
appends exactly one audit event, even when the new status equals the
transaction's current status; consequently processing the same webhook
payload twice succeeds both times, grows the audit trail by exactly one
event on each delivery, and re-emits the cancel-timeout
`transaction.status_updated` event on each delivery. -/
theorem duplicate_webhook_grows_audit_trail (db : Db) (id s : String)
    (e : Int) (g : GatewayPayload) (w : WebhookBody) (tw : Transaction)
    (hw : findTransactionByExternalId db w.orderCode = some tw) :
    (∀ t, findTransactionById db id = some t →
      (updateStatus db id s).db.transaction_events.length
        = db.transaction_events.length + 1)
  ∧ (∀ t, findTransactionByExternalId db e = some t →
      (updateGatewayResponse db e g s).db.transaction_events.length
        = db.transaction_events.length + 1)
  ∧ isOk (handleWebhook db w).result = true
  ∧ (handleWebhook db w).db.transaction_events.length
      = db.transaction_events.length + 1
  ∧ (handleWebhook db w).events.any isCancelTimeoutEvent = true
  ∧ isOk (handleWebhook (handleWebhook db w).db w).result = true
  ∧ (handleWebhook (handleWebhook db w).db w).db.transaction_events.length
      = db.transaction_events.length + 2
  ∧ (handleWebhook (handleWebhook db w).db w).events.any
      isCancelTimeoutEvent = true := by
  have hw1 := handleWebhook_preserves_ext db w tw hw
  refine ⟨?_, ?_, handleWebhook_result_ok db w tw hw,
    handleWebhook_events_len db w tw hw,
    handleWebhook_emits_cancel db w tw hw,
    handleWebhook_result_ok _ w _ hw1, ?_,
    handleWebhook_emits_cancel _ w _ hw1⟩
  · intro t ht
    rw [updateStatus_db_events db id s t ht]
    simp
  · intro t ht
    rw [gw_db_events db e g s t ht]
    simp
  · rw [handleWebhook_events_len _ w _ hw1,
      handleWebhook_events_len db w tw hw]

/-- Witness for the C10 theorem: the same success webhook delivered
twice against the awaiting-payment fixture, plus an `updateStatus` that
rewrites the current status unchanged. -/
theorem duplicate_webhook_grows_audit_trail_witness :
    (updateStatus dbAwaiting "t2"
        TransactionStatus.AWAITING_PAYMENT).db.transaction_events.length
      = dbAwaiting.transaction_events.length + 1
  ∧ isOk (handleWebhook dbAwaiting
      { code := "00", desc := "success", orderCode := 41, amount := 250 }).result
      = true
  ∧ (handleWebhook (handleWebhook dbAwaiting
        { code := "00", desc := "success", orderCode := 41, amount := 250 }).db
      { code := "00", desc := "success", orderCode := 41, amount := 250
        }).db.transaction_events.length
      = dbAwaiting.transaction_events.length + 2
  ∧ (handleWebhook (handleWebhook dbAwaiting
        { code := "00", desc := "success", orderCode := 41, amount := 250 }).db
      { code := "00", desc := "success", orderCode := 41, amount := 250
        }).events.any isCancelTimeoutEvent = true :=
  have h := duplicate_webhook_grows_audit_trail dbAwaiting "t2"
    TransactionStatus.AWAITING_PAYMENT 41 GatewayPayload.jsonNull
    { code := "00", desc := "success", orderCode := 41, amount := 250 }
    txAwaiting (by decide)
  ⟨h.1 txAwaiting (by decide), h.2.2.1, h.2.2.2.2.2.2.1, h.2.2.2.2.2.2.2⟩

end PaymentGateway
